import Mathlib

/-!
Verification development for the pyrevm EVM binding.

The Rust sources under `src/` expose an embedded EVM to Python.  The parts
embedded here are the account-state / checkpointing layer of `src/evm.rs`,
the database dispatch of `src/database.rs` and `src/empty_db_wrapper.rs`,
the checkpoint token of `src/types/checkpoint.rs`, and the result
projection of `src/types/execution_result.rs`.

The external EVM engine (the `revm` crate: `JournaledState`, `CacheDB`,
the interpreter loop) is not part of this repository; its behaviour is
modelled from the specification where the wrapper calls into it, and every
such definition carries a doc comment starting `Modelled from the spec:`.

Machine integers (U256 balances, storage words, usize counters) are
modelled as `Nat`; the wrapper never performs arithmetic on them, it only
stores and compares them, so no overflow reduction is needed.
-/

namespace PyRevm

/-- 256-bit unsigned word, modelled as `Nat`. -/
abbrev U256 := Nat

/-- 20-byte account identifier, modelled as `Nat`. -/
abbrev Address := Nat

/-- The keccak256 digest of the empty byte sequence (`revm::KECCAK_EMPTY`),
as a 256-bit number. -/
def KECCAK_EMPTY : Nat :=
  0xc5d2460186f7233c927e7db2dcc703c0e500b653ca82273b7bfad8045d85a470

/-- Account information as held by the store (`revm::AccountInfo`, marshalled
by `src/types/info.rs`): balance, nonce, code bytes (empty list when absent,
matching the Python getter which returns an empty byte string for `None`)
and the code hash. -/
structure AccountInfo where
  balance : U256
  nonce : Nat
  code : List Nat
  code_hash : Nat
deriving Repr, DecidableEq

/-- Zero-valued account info (`AccountInfo::default()` as returned by
`EmptyDBWrapper::basic_ref` in `src/empty_db_wrapper.rs`): zero balance,
zero nonce, no code, empty-code hash. -/
def AccountInfo.zero : AccountInfo :=
  { balance := 0, nonce := 0, code := [], code_hash := KECCAK_EMPTY }

/-- An account entry: its info plus its storage slots.  Used both for the
backing store's `DbAccount` entries and for the journaled execution state's
entries.  A slot holds `none` when it was never written (reads then fall
back to the zero default). -/
structure Account where
  info : AccountInfo
  storage : U256 → Option U256

/-- Database-side account entry (`revm::db::DbAccount`). -/
abbrev DbAccount := Account

/-- Insert-or-replace on a function-backed partial map. -/
def mapInsert {κ α : Type} [DecidableEq κ] (m : κ → Option α) (k : κ) (v : α) :
    κ → Option α :=
  fun x => if x = k then some v else m x

/-- Removal on a function-backed partial map. -/
def mapRemove {κ α : Type} [DecidableEq κ] (m : κ → Option α) (k : κ) :
    κ → Option α :=
  fun x => if x = k then none else m x

/-- The in-memory backing store: `DB::Memory`, i.e. `CacheDB<EmptyDBWrapper>`
from `src/database.rs`.  A map from address to cached account entry; the
fork (remote) variant is out of scope for the claims treated here. -/
structure DB where
  accounts : Address → Option DbAccount

/-- Modelled from the spec: `CacheDB::basic` of the external revm crate,
instantiated with `EmptyDBWrapper` (`src/empty_db_wrapper.rs`, which always
answers `Some(AccountInfo::default())`).  A read miss is served with the
zero-valued default.  The cold-load caching of the miss into the local map
is omitted here: the spec declares it unobservable, and it never changes
the value any later read returns. -/
def DB.basicVal (db : DB) (a : Address) : AccountInfo :=
  match db.accounts a with
  | some acc => acc.info
  | none => AccountInfo.zero

/-- Modelled from the spec: `CacheDB::storage` of the external revm crate.
A hit serves the cached slot, any miss falls through to the empty reference
database and yields zero. -/
def DB.storageVal (db : DB) (a : Address) (i : U256) : U256 :=
  match db.accounts a with
  | some acc => (acc.storage i).getD 0
  | none => 0

/-- `DB::insert_account_info` from `src/database.rs`: replaces the account's
info but does not override its storage ("Insert account info but not
override storage"). -/
def DB.insert_account_info (db : DB) (a : Address) (info : AccountInfo) : DB :=
  { accounts :=
      mapInsert db.accounts a
        { info := info
          storage :=
            match db.accounts a with
            | some acc => acc.storage
            | none => fun _ => none } }

/-- Modelled from the spec: `CacheDB::commit` of the external revm crate,
as invoked by `EVM::call_raw_committing` and `EVM::deploy`: applies a
returned state diff permanently into the backing store (spec section 4.4,
"applies a returned state diff permanently into the backing store"). -/
def DB.commitDiff (db : DB) (changes : Address → Option Account) : DB :=
  { accounts := fun a =>
      match changes a with
      | some acc => some acc
      | none => db.accounts a }

/-- Checkpoint token from `src/types/checkpoint.rs`: the pair of the log
count and the journal length at the moment of the snapshot. -/
structure JournalCheckpoint where
  log_i : Nat
  journal_i : Nat
deriving Repr, DecidableEq

/-- The data fed to the hasher by the manual `Hash` implementation in
`src/types/checkpoint.rs`: first `log_i`, then `journal_i`. -/
def JournalCheckpoint.hashFields (c : JournalCheckpoint) : Nat × Nat :=
  (c.log_i, c.journal_i)

/-- Modelled from the spec: one entry of the external revm crate's journal
(spec section 3, JournalEntry): a record of one state mutation sufficient to
undo it, storing the exact prior binding of the mutated account in the
journaled execution state. -/
inductive JournalEntry where
  | accountChange (address : Address) (prev : Option Account)

/-- The address a journal entry is about. -/
def JournalEntry.address : JournalEntry → Address
  | .accountChange a _ => a

/-- Undo one journal entry: restore the recorded prior binding. -/
def undoEntry (st : Address → Option Account) : JournalEntry → (Address → Option Account)
  | .accountChange a prev => fun x => if x = a then prev else st x

/-- Undo a list of journal entries in the given order. -/
def undoAll (st : Address → Option Account) : List JournalEntry → (Address → Option Account)
  | [] => st
  | e :: es => undoAll (undoEntry st e) es

/-- Modelled from the spec: the external revm crate's `JournaledState` as
described in spec sections 3 and 4.3 — the in-flight execution state map,
the single ordered journal of undoable mutations, the count of emitted logs
and the checkpoint depth. -/
structure JournaledState where
  state : Address → Option Account
  journal : List JournalEntry
  logs : Nat
  depth : Nat

/-- Modelled from the spec: `JournaledState::checkpoint` of the external
revm crate (spec 4.3, snapshot "records current (journal length, log
count); pushes state depth by one. Pure; cannot fail"). -/
def JournaledState.checkpoint (js : JournaledState) :
    JournalCheckpoint × JournaledState :=
  ({ log_i := js.logs, journal_i := js.journal.length },
   { js with depth := js.depth + 1 })

/-- Modelled from the spec: `JournaledState::checkpoint_revert` of the
external revm crate (spec 4.3): every journal entry appended after the
token's recorded journal length is undone in reverse order, each undo
restoring the exact prior value recorded at mutation time; logs appended
after the token's log count are discarded; the depth is popped. -/
def JournaledState.checkpoint_revert (js : JournaledState)
    (cp : JournalCheckpoint) : JournaledState :=
  { state := undoAll js.state (js.journal.drop cp.journal_i).reverse
    journal := js.journal.take cp.journal_i
    logs := min js.logs cp.log_i
    depth := js.depth - 1 }

/-- Modelled from the spec: `JournaledState::checkpoint_commit` of the
external revm crate (spec 4.3, commit: "discards all outstanding checkpoint
tokens without undoing anything — the current state becomes the new
baseline. Idempotent"; the state machine returns to `Clean`, so the depth
is reset to zero). -/
def JournaledState.checkpoint_commit (js : JournaledState) : JournaledState :=
  { js with depth := 0 }

/-- Success reasons of the engine's execution result
(`revm::primitives::SuccessReason`). -/
inductive SuccessReason where
  | Stop | Return | SelfDestruct
deriving Repr, DecidableEq

/-- Out-of-gas subreasons (`revm::primitives::OutOfGasError`). -/
inductive OutOfGasError where
  | Basic | MemoryLimit | Memory | Precompile | InvalidOperand
deriving Repr, DecidableEq

/-- Halt reasons (`revm::primitives::HaltReason`).  The Rust enum is
non-exhaustive from the wrapper's point of view — the projection in
`src/types/execution_result.rs` ends in a `_` arm — so an extra
`Unrecognized` constructor stands for any unrecognized or future variant. -/
inductive HaltReason where
  | OutOfGas (e : OutOfGasError)
  | OpcodeNotFound | InvalidFEOpcode | InvalidJump | NotActivated
  | StackUnderflow | StackOverflow | OutOfOffset | CreateCollision
  | PrecompileError | NonceOverflow | CreateContractSizeLimit
  | CreateContractStartingWithEF | CreateInitCodeSizeLimit
  | OverflowPayment | StateChangeDuringStaticCall
  | CallNotAllowedInsideStatic | OutOfFunds | CallTooDeep
  | Unrecognized (tag : Nat)
deriving Repr, DecidableEq

/-- Output payload of a successful execution
(`revm::primitives::Output`): call data bytes, or deployment data plus the
optionally created address. -/
inductive Output where
  | Call (data : List Nat)
  | Create (data : List Nat) (address : Option Address)
deriving Repr, DecidableEq

/-- `Output::into_data`. -/
def Output.into_data : Output → List Nat
  | .Call d => d
  | .Create d _ => d

/-- The engine's execution result (`revm::primitives::ExecutionResult`),
with the fields the wrapper inspects. -/
inductive RevmExecutionResult where
  | Success (reason : SuccessReason) (gas_used : Nat) (gas_refunded : Nat)
      (output : Output)
  | Revert (gas_used : Nat) (output : List Nat)
  | Halt (reason : HaltReason) (gas_used : Nat)
deriving Repr, DecidableEq

/-- `ExecutionResult::is_success` of the engine result. -/
def RevmExecutionResult.is_success : RevmExecutionResult → Bool
  | .Success _ _ _ _ => true
  | _ => false

/-- `ExecutionResult::is_halt` of the engine result. -/
def RevmExecutionResult.is_halt : RevmExecutionResult → Bool
  | .Halt _ _ => true
  | _ => false

/-- The host-visible result value (`ExecutionResult` in
`src/types/execution_result.rs`). -/
structure ExecutionResult where
  is_success : Bool
  is_halt : Bool
  reason : String
  gas_used : Nat
  gas_refunded : Nat
deriving Repr, DecidableEq

/-- The projection `From<RevmExecutionResult> for ExecutionResult` of
`src/types/execution_result.rs`, arm for arm. -/
def ExecutionResult.fromRevm (result : RevmExecutionResult) : ExecutionResult :=
  { is_success := result.is_success
    is_halt := result.is_halt
    reason :=
      match result with
      | .Success reason _ _ _ =>
          match reason with
          | .Stop => "Stop"
          | .Return => "Return"
          | .SelfDestruct => "SelfDestruct"
      | .Revert _ _ => "Revert"
      | .Halt reason _ =>
          match reason with
          | .OutOfGas .Basic => "OutOfGas:Basic"
          | .OutOfGas .MemoryLimit => "OutOfGas:MemoryLimit"
          | .OutOfGas .Memory => "OutOfGas:Memory"
          | .OutOfGas .Precompile => "OutOfGas:Precompile"
          | .OutOfGas .InvalidOperand => "OutOfGas:InvalidOperand"
          | .OpcodeNotFound => "OpcodeNotFound"
          | .InvalidFEOpcode => "InvalidFEOpcode"
          | .InvalidJump => "InvalidJump"
          | .NotActivated => "NotActivated"
          | .StackUnderflow => "StackUnderflow"
          | .StackOverflow => "StackOverflow"
          | .OutOfOffset => "OutOfOffset"
          | .CreateCollision => "CreateCollision"
          | .PrecompileError => "PrecompileError"
          | .NonceOverflow => "NonceOverflow"
          | .CreateContractSizeLimit => "CreateContractSizeLimit"
          | .CreateContractStartingWithEF => "CreateContractStartingWithEF"
          | .CreateInitCodeSizeLimit => "CreateInitCodeSizeLimit"
          | .OverflowPayment => "OverflowPayment"
          | .StateChangeDuringStaticCall => "StateChangeDuringStaticCall"
          | .CallNotAllowedInsideStatic => "CallNotAllowedInsideStatic"
          | .OutOfFunds => "OutOfFunds"
          | .CallTooDeep => "CallTooDeep"
          | .Unrecognized _ => "Unknown"
    gas_used :=
      match result with
      | .Success _ gas_used _ _ => gas_used
      | .Revert gas_used _ => gas_used
      | .Halt _ gas_used => gas_used
    gas_refunded :=
      match result with
      | .Success _ _ gas_refunded _ => gas_refunded
      | _ => 0 }

/-- Python-level errors raised by the wrapper methods of `src/evm.rs`.
`NoCheckpointToRevert` is the `PyOverflowError("No checkpoint to revert
to")`, `InvalidCheckpoint` the `PyKeyError("Invalid checkpoint")`,
`RuntimeError` the `pyerr(result)` raised for a non-Success engine result,
`InvalidOutput` the `pyerr("Invalid output")` of `deploy_with_env`, and
`PanicNoAddress` stands for the `address.unwrap()` panic on a create
output with no address. -/
inductive PyErr where
  | NoCheckpointToRevert
  | InvalidCheckpoint
  | RuntimeError (result : RevmExecutionResult)
  | InvalidOutput
  | PanicNoAddress
deriving Repr, DecidableEq

/-- The execution context (`revm::EvmContext<DB>`): the journaled execution
state and the backing database, the two fields of it that `src/evm.rs`
reads and writes. -/
structure EvmContext where
  journaled_state : JournaledState
  db : DB

/-- The `EVM` pyclass of `src/evm.rs`, restricted to the fields the claims
are about: the execution context, the checkpoint map from host-visible
tokens to engine checkpoints, and the last execution result. -/
structure EVM where
  context : EvmContext
  checkpoints : JournalCheckpoint → Option JournalCheckpoint
  result : Option RevmExecutionResult

/-- `EVM::new` with no fork url: a fresh in-memory instance
(`DB::new_memory`, empty journaled state, no checkpoints, no result). -/
def EVM.new_memory : EVM :=
  { context :=
      { journaled_state := { state := fun _ => none, journal := [], logs := 0, depth := 0 }
        db := { accounts := fun _ => none } }
    checkpoints := fun _ => none
    result := none }

/-- `EVM::snapshot` from `src/evm.rs`: build the token from the current log
count and journal length, push an engine checkpoint, and insert the pair
into the checkpoint map. -/
def EVM.snapshot (e : EVM) : JournalCheckpoint × EVM :=
  let cp : JournalCheckpoint :=
    { log_i := e.context.journaled_state.logs
      journal_i := e.context.journaled_state.journal.length }
  let r := e.context.journaled_state.checkpoint
  (cp,
   { e with
     context := { e.context with journaled_state := r.2 }
     checkpoints := mapInsert e.checkpoints cp r.1 })

/-- `EVM::revert` from `src/evm.rs`: error with `NoCheckpointToRevert` when
the journal depth is zero; otherwise remove the token from the checkpoint
map and revert to it, or error with `InvalidCheckpoint` when the token is
not in the map.  The second component is the instance after the call (the
Rust method mutates `&mut self`); on error it is unchanged. -/
def EVM.revert (e : EVM) (checkpoint : JournalCheckpoint) :
    Except PyErr Unit × EVM :=
  if e.context.journaled_state.depth = 0 then
    (.error .NoCheckpointToRevert, e)
  else
    match e.checkpoints checkpoint with
    | some revm_checkpoint =>
        (.ok (),
         { e with
           context :=
             { e.context with
               journaled_state :=
                 e.context.journaled_state.checkpoint_revert revm_checkpoint }
           checkpoints := mapRemove e.checkpoints checkpoint })
    | none => (.error .InvalidCheckpoint, e)

/-- `EVM::commit` from `src/evm.rs`: forwards to the engine's
`checkpoint_commit` and nothing else — in particular the checkpoint map is
left untouched. -/
def EVM.commit (e : EVM) : EVM :=
  { e with
    context :=
      { e.context with
        journaled_state := e.context.journaled_state.checkpoint_commit } }

/-- Modelled from the spec: `EvmContext::load_account` of the external revm
crate, as used for reads by `EVM::basic` / `EVM::get_balance` — the
journaled execution state is consulted first, a miss is served from the
backing database (spec section 2: the journaled context "proxies
reads/writes" to the store).  The cold-load caching of the miss is omitted
as unobservable. -/
def EvmContext.loadAccountInfo (ctx : EvmContext) (a : Address) : AccountInfo :=
  match ctx.journaled_state.state a with
  | some acc => acc.info
  | none => ctx.db.basicVal a

/-- `EVM::basic` from `src/evm.rs`: the info of the loaded account. -/
def EVM.basic (e : EVM) (address : Address) : AccountInfo :=
  e.context.loadAccountInfo address

/-- `EVM::get_balance` from `src/evm.rs` (`context.balance`, which is the
loaded account's balance). -/
def EVM.get_balance (e : EVM) (address : Address) : U256 :=
  (e.context.loadAccountInfo address).balance

/-- `EVM::storage` from `src/evm.rs`: reads `self.context.db` directly — the
journaled execution state is not consulted. -/
def EVM.storage (e : EVM) (address : Address) (index : U256) : U256 :=
  e.context.db.storageVal address index

/-- `EVM::insert_account_info` from `src/evm.rs`: writes the backing
database only; the journaled execution state and the journal are not
touched. -/
def EVM.insert_account_info (e : EVM) (address : Address) (info : AccountInfo) : EVM :=
  { e with context := { e.context with db := e.context.db.insert_account_info address info } }

/-- `EVM::set_balance` from `src/evm.rs`: load the account (journaled state
first, database default on a miss), set its balance, write the info back
into the database, insert the account into the journaled execution state,
and touch it — the touch journals the mutation, recording the account's
prior binding so a revert can restore it (spec 4.3: `record(entry)` is
called by every mutating store operation). -/
def EVM.set_balance (e : EVM) (address : Address) (balance : U256) : EVM :=
  let prev := e.context.journaled_state.state address
  let info :=
    { (match prev with
       | some acc => acc.info
       | none => e.context.db.basicVal address) with balance := balance }
  let account : Account :=
    { info := info
      storage :=
        match prev with
        | some acc => acc.storage
        | none => fun _ => none }
  { e with
    context :=
      { journaled_state :=
          { e.context.journaled_state with
            state := mapInsert e.context.journaled_state.state address account
            journal := e.context.journaled_state.journal
              ++ [JournalEntry.accountChange address prev] }
        db := e.context.db.insert_account_info address info } }

/-- The result-and-state pair returned by one engine run
(`revm::primitives::ResultAndState`): the execution result and the state
diff drained from the journaled context. -/
structure ResultAndState where
  result : RevmExecutionResult
  state : Address → Option Account

/-- Modelled from the spec: `EVM::run_env` of `src/evm.rs` hands the
context to the external engine and takes it back.  The engine's behaviour
is a parameter (`run`): the engine is out of scope, any result and state
diff may come back.  What the wrapper code fixes (`EVM::output`, whose
source comment reads "reset journal and return present state") is that the
journaled execution state is finalized — drained into the returned diff and
reset — that the backing database is not committed here, that the
checkpoint map is untouched, and that the result is recorded in
`self.result`. -/
def EVM.run_env (e : EVM) (run : ResultAndState) : ResultAndState × EVM :=
  (run,
   { e with
     context :=
       { e.context with
         journaled_state := { state := fun _ => none, journal := [], logs := 0, depth := 0 } }
     result := some run.result })

/-- `EVM::call_raw_with_env` from `src/evm.rs`: run the environment, then
return the output data and state diff on `Success`, and raise
`pyerr(result)` on `Revert` or `Halt`. -/
def EVM.call_raw_with_env (e : EVM) (run : ResultAndState) :
    Except PyErr (List Nat × (Address → Option Account)) × EVM :=
  let r := e.run_env run
  match r.1.result with
  | .Success _ _ _ output => (.ok (output.into_data, r.1.state), r.2)
  | other => (.error (.RuntimeError other), r.2)

/-- `EVM::deploy_with_env` from `src/evm.rs`: run the environment, then
return the created address and state diff on a `Success` with a `Create`
output, raise `pyerr("Invalid output")` on a `Success` with a `Call`
output, panic on a `Create` output with no address, and raise
`pyerr(result)` on `Revert` or `Halt`. -/
def EVM.deploy_with_env (e : EVM) (run : ResultAndState) :
    Except PyErr (Address × (Address → Option Account)) × EVM :=
  let r := e.run_env run
  match r.1.result with
  | .Success _ _ _ (.Create _ (some address)) => (.ok (address, r.1.state), r.2)
  | .Success _ _ _ (.Create _ none) => (.error .PanicNoAddress, r.2)
  | .Success _ _ _ (.Call _) => (.error .InvalidOutput, r.2)
  | other => (.error (.RuntimeError other), r.2)

/-- `EVM::call_raw` from `src/evm.rs`: the non-committing call — the state
diff is returned to the caller as a dictionary of account infos and is not
committed to the backing database. -/
def EVM.call_raw (e : EVM) (run : ResultAndState) :
    Except PyErr (List Nat × (Address → Option AccountInfo)) × EVM :=
  match e.call_raw_with_env run with
  | (.ok (data, state), e2) => (.ok (data, fun a => (state a).map Account.info), e2)
  | (.error err, e2) => (.error err, e2)

/-- `EVM::call_raw_committing` from `src/evm.rs`: the committing call — on
success the state diff is committed into the backing database. -/
def EVM.call_raw_committing (e : EVM) (run : ResultAndState) :
    Except PyErr (List Nat) × EVM :=
  match e.call_raw_with_env run with
  | (.ok (data, state), e2) =>
      (.ok data, { e2 with context := { e2.context with db := e2.context.db.commitDiff state } })
  | (.error err, e2) => (.error err, e2)

/-- `EVM::deploy` from `src/evm.rs`: commits the diff and returns the
created address. -/
def EVM.deploy (e : EVM) (run : ResultAndState) : Except PyErr Address × EVM :=
  match e.deploy_with_env run with
  | (.ok (address, state), e2) =>
      (.ok address, { e2 with context := { e2.context with db := e2.context.db.commitDiff state } })
  | (.error err, e2) => (.error err, e2)

/-- Whether a halt reason is one of the variants the projection of
`src/types/execution_result.rs` recognizes by name (everything except the
stand-in for unrecognized/future variants). -/
def HaltReason.isRecognized : HaltReason → Bool
  | .Unrecognized _ => false
  | _ => true

/-- Spec-side table for the refinement claim about the result projection:
the named tag of each halt reason, per the spec's ResultProjector contract
("maps the engine's internal success/revert/halt reasons onto a small
closed vocabulary ... Unrecognized/future halt reasons project to a generic
Unknown tag").  To be compared with `ExecutionResult.fromRevm`. -/
def specHaltTag : HaltReason → String
  | .OutOfGas .Basic => "OutOfGas:Basic"
  | .OutOfGas .MemoryLimit => "OutOfGas:MemoryLimit"
  | .OutOfGas .Memory => "OutOfGas:Memory"
  | .OutOfGas .Precompile => "OutOfGas:Precompile"
  | .OutOfGas .InvalidOperand => "OutOfGas:InvalidOperand"
  | .OpcodeNotFound => "OpcodeNotFound"
  | .InvalidFEOpcode => "InvalidFEOpcode"
  | .InvalidJump => "InvalidJump"
  | .NotActivated => "NotActivated"
  | .StackUnderflow => "StackUnderflow"
  | .StackOverflow => "StackOverflow"
  | .OutOfOffset => "OutOfOffset"
  | .CreateCollision => "CreateCollision"
  | .PrecompileError => "PrecompileError"
  | .NonceOverflow => "NonceOverflow"
  | .CreateContractSizeLimit => "CreateContractSizeLimit"
  | .CreateContractStartingWithEF => "CreateContractStartingWithEF"
  | .CreateInitCodeSizeLimit => "CreateInitCodeSizeLimit"
  | .OverflowPayment => "OverflowPayment"
  | .StateChangeDuringStaticCall => "StateChangeDuringStaticCall"
  | .CallNotAllowedInsideStatic => "CallNotAllowedInsideStatic"
  | .OutOfFunds => "OutOfFunds"
  | .CallTooDeep => "CallTooDeep"
  | .Unrecognized _ => "Unknown"

/-- A sequence of `set_balance` calls, applied in order. -/
def applyBalances (e : EVM) (ops : List (Address × U256)) : EVM :=
  ops.foldl (fun acc p => acc.set_balance p.1 p.2) e

/-- Nested-checkpoint scenario, step 2: token T1 taken, then one balance
write. -/
def c4e2 (e : EVM) (a : Address) (v1 : U256) : EVM :=
  (e.snapshot.2).set_balance a v1

/-- Nested-checkpoint scenario, step 4: token T2 taken after T1, then a
second balance write. -/
def c4e4 (e : EVM) (a : Address) (v1 v2 : U256) : EVM :=
  ((c4e2 e a v1).snapshot.2).set_balance a v2

/-- The outer token T1 of the nested-checkpoint scenario. -/
def c4T1 (e : EVM) : JournalCheckpoint := e.snapshot.1

/-- The inner token T2 of the nested-checkpoint scenario. -/
def c4T2 (e : EVM) (a : Address) (v1 : U256) : JournalCheckpoint :=
  (c4e2 e a v1).snapshot.1

/-- Whether the journaled execution overlay agrees with the backing store
at an address: if the address is materialized in the overlay, its info
equals what the database answers.  Holds whenever the overlay is empty and
is kept by `set_balance` (which writes both layers); it is broken by
`insert_account_info` on a materialized address (which writes only the
database). -/
def EVM.overlayConsistentAt (e : EVM) (a : Address) : Bool :=
  match e.context.journaled_state.state a with
  | some acc => decide (acc.info = e.context.db.basicVal a)
  | none => true

/-- Concrete instance where the journaled overlay diverges from the backing
store at address 187: `set_balance` wrote both layers, then
`insert_account_info` overwrote only the database. -/
def c6e : EVM :=
  (EVM.new_memory.set_balance 187 100).insert_account_info 187
    { balance := 7, nonce := 0, code := [], code_hash := KECCAK_EMPTY }

/-- A trivial successful engine run with an empty state diff. -/
def c6run : ResultAndState :=
  { result := .Success .Stop 0 0 (.Call []), state := fun _ => none }

/-- One host-level store operation (the mutating and checkpointing calls
exposed by `src/evm.rs`; the purely reading calls do not change the
observable state in this model and the committing call variants are
writes by construction). -/
inductive HostOp where
  | setBalance (address : Address) (balance : U256)
  | insertAccountInfo (address : Address) (info : AccountInfo)
  | snapshotOp
  | revertOp (checkpoint : JournalCheckpoint)
  | commitOp
  | callRawOp (run : ResultAndState)

/-- Apply one host operation (a failing revert leaves the instance
unchanged, as the raised Python exception does). -/
def applyOp (e : EVM) : HostOp → EVM
  | .setBalance a v => e.set_balance a v
  | .insertAccountInfo a info => e.insert_account_info a info
  | .snapshotOp => e.snapshot.2
  | .revertOp cp => (e.revert cp).2
  | .commitOp => e.commit
  | .callRawOp run => (e.call_raw run).2

/-- Apply a list of host operations in order. -/
def applyOps (e : EVM) (ops : List HostOp) : EVM := ops.foldl applyOp e

/-- Whether a host operation writes the given address (`set_balance` or
`insert_account_info` targeting it). -/
def HostOp.writes (op : HostOp) (a : Address) : Bool :=
  match op with
  | .setBalance x _ => decide (x = a)
  | .insertAccountInfo x _ => decide (x = a)
  | _ => false

/-- An address is untouched in an instance: absent from the journaled
overlay, absent from the backing store's cache, and mentioned by no journal
entry. -/
def untouchedAt (e : EVM) (a : Address) : Prop :=
  e.context.journaled_state.state a = none
  ∧ e.context.db.accounts a = none
  ∧ ∀ ent ∈ e.context.journaled_state.journal, ent.address ≠ a

/-! ## General lemmas about the embedding -/

theorem undoAll_append (st : Address → Option Account) (l1 l2 : List JournalEntry) :
    undoAll st (l1 ++ l2) = undoAll (undoAll st l1) l2 := by
  induction l1 generalizing st with
  | nil => rfl
  | cons e es ih => simp [undoAll, ih]

theorem undoAll_untouched (a : Address) (l : List JournalEntry)
    (h : ∀ ent ∈ l, ent.address ≠ a) (st : Address → Option Account) :
    undoAll st l a = st a := by
  induction l generalizing st with
  | nil => rfl
  | cons e es ih =>
      have he := h e (by simp)
      have hr : ∀ ent ∈ es, ent.address ≠ a := fun ent hm => h ent (by simp [hm])
      cases e with
      | accountChange x prev =>
          simp [undoAll, ih hr, undoEntry]
          intro hax
          exact absurd (by simp [JournalEntry.address, hax]) he

/-- `set_balance` does not change any observable storage slot: the
database write replaces the info but keeps the storage. -/
theorem set_balance_storage (e : EVM) (a : Address) (v : U256) (x : Address) (i : U256) :
    (e.set_balance a v).storage x i = e.storage x i := by
  unfold EVM.set_balance EVM.storage DB.storageVal DB.insert_account_info mapInsert
  by_cases hx : x = a
  · subst hx
    cases hdb : e.context.db.accounts x <;> simp [hdb]
  · simp [hx]

/-- A run of `set_balance` calls appends undo entries to the journal whose
reversed replay restores the journaled overlay exactly; the log count, the
depth, the checkpoint map and the observable storage are unchanged. -/
theorem applyBalances_spec (ops : List (Address × U256)) (e : EVM) :
    ∃ delta : List JournalEntry,
      (applyBalances e ops).context.journaled_state.journal
        = e.context.journaled_state.journal ++ delta
    ∧ undoAll (applyBalances e ops).context.journaled_state.state delta.reverse
        = e.context.journaled_state.state
    ∧ (applyBalances e ops).context.journaled_state.logs
        = e.context.journaled_state.logs
    ∧ (applyBalances e ops).context.journaled_state.depth
        = e.context.journaled_state.depth
    ∧ (applyBalances e ops).checkpoints = e.checkpoints
    ∧ ∀ x i, (applyBalances e ops).storage x i = e.storage x i := by
  induction ops generalizing e with
  | nil => exact ⟨[], by simp [applyBalances, undoAll]⟩
  | cons p rest ih =>
      obtain ⟨delta, hJ, hU, hL, hD, hC, hS⟩ := ih (e.set_balance p.1 p.2)
      refine ⟨JournalEntry.accountChange p.1 (e.context.journaled_state.state p.1) :: delta,
        ?_, ?_, ?_, ?_, ?_, ?_⟩
      · simpa [applyBalances, EVM.set_balance, List.append_assoc] using hJ
      · have : (applyBalances e (p :: rest)) = applyBalances (e.set_balance p.1 p.2) rest := rfl
        rw [this, List.reverse_cons, undoAll_append, hU]
        funext x
        by_cases hx : x = p.1
        · subst hx
          simp [undoAll, undoEntry, EVM.set_balance, mapInsert]
        · simp [undoAll, undoEntry, EVM.set_balance, mapInsert, hx]
      · simpa [applyBalances, EVM.set_balance] using hL
      · simpa [applyBalances, EVM.set_balance] using hD
      · simpa [applyBalances, EVM.set_balance] using hC
      · intro x i
        have : (applyBalances e (p :: rest)) = applyBalances (e.set_balance p.1 p.2) rest := rfl
        rw [this, hS x i, set_balance_storage]

/-- `insert_account_info` does not change any observable storage slot: the
database write replaces the info but keeps the storage. -/
theorem insert_account_info_storage (e : EVM) (a : Address) (info : AccountInfo)
    (x : Address) (i : U256) :
    (e.insert_account_info a info).storage x i = e.storage x i := by
  unfold EVM.insert_account_info EVM.storage DB.storageVal DB.insert_account_info mapInsert
  by_cases hx : x = a
  · subst hx
    cases hdb : e.context.db.accounts x <;> simp [hdb]
  · simp [hx]

/-- Both branches of `call_raw` leave the instance exactly as `run_env`
left it (the diff is only marshalled, never committed). -/
theorem call_raw_state (e : EVM) (run : ResultAndState) :
    (e.call_raw run).2 = (e.run_env run).2 := by
  rcases run with ⟨res, st⟩
  cases res <;> rfl

/-- No host store operation writes any observable storage slot: the
exposed surface has no storage-write call, the account-info writes keep
the storage, the non-committing call never commits, and revert leaves the
database alone. -/
theorem applyOp_storage (e : EVM) (op : HostOp) (x : Address) (i : U256) :
    (applyOp e op).storage x i = e.storage x i := by
  cases op with
  | setBalance a v => exact set_balance_storage e a v x i
  | insertAccountInfo a info => exact insert_account_info_storage e a info x i
  | snapshotOp => rfl
  | commitOp => rfl
  | callRawOp run =>
      show ((e.call_raw run).2).storage x i = e.storage x i
      rw [call_raw_state]
      rfl
  | revertOp cp =>
      show ((e.revert cp).2).storage x i = e.storage x i
      unfold EVM.revert
      by_cases hd : e.context.journaled_state.depth = 0
      · simp [hd]
      · cases hm : e.checkpoints cp with
        | some rcp => simp [hd, hm, EVM.storage]
        | none => simp [hd, hm]

/-- A whole trace of host store operations leaves every observable storage
slot unchanged. -/
theorem applyOps_storage (ops : List HostOp) (e : EVM) (x : Address) (i : U256) :
    (applyOps e ops).storage x i = e.storage x i := by
  induction ops generalizing e with
  | nil => rfl
  | cons op rest ih => exact (ih (applyOp e op)).trans (applyOp_storage e op x i)

/-- A revert with positive depth and a token present in the map takes the
success branch and produces exactly the reverted instance. -/
theorem revert_some (e : EVM) (cp rcp : JournalCheckpoint)
    (hd : e.context.journaled_state.depth ≠ 0) (hc : e.checkpoints cp = some rcp) :
    EVM.revert e cp
      = (.ok (), { e with
          context := { e.context with
            journaled_state := e.context.journaled_state.checkpoint_revert rcp }
          checkpoints := mapRemove e.checkpoints cp }) := by
  unfold EVM.revert
  rw [if_neg hd, hc]

/-- A revert with positive depth and a token present in the map succeeds. -/
theorem revert_ok (e : EVM) (cp : JournalCheckpoint)
    (hd : e.context.journaled_state.depth ≠ 0) (hc : e.checkpoints cp ≠ none) :
    (EVM.revert e cp).1 = .ok () := by
  cases hm : e.checkpoints cp with
  | none => exact absurd hm hc
  | some rcp => rw [revert_some e cp rcp hd hm]

/-- Reverting the token of a snapshot after a run of `set_balance` calls
succeeds and restores the journaled overlay, the journal, the log count and
the depth to their values at the snapshot; the token is removed from the
checkpoint map and the backing database is the one the balance writes
produced. -/
theorem snapshot_balances_revert (e : EVM) (ops : List (Address × U256)) :
    ((applyBalances e.snapshot.2 ops).revert e.snapshot.1).1 = .ok ()
  ∧ ((applyBalances e.snapshot.2 ops).revert e.snapshot.1).2.context.journaled_state.state
      = e.context.journaled_state.state
  ∧ ((applyBalances e.snapshot.2 ops).revert e.snapshot.1).2.context.journaled_state.journal
      = e.context.journaled_state.journal
  ∧ ((applyBalances e.snapshot.2 ops).revert e.snapshot.1).2.context.journaled_state.logs
      = e.context.journaled_state.logs
  ∧ ((applyBalances e.snapshot.2 ops).revert e.snapshot.1).2.context.journaled_state.depth
      = e.context.journaled_state.depth
  ∧ ((applyBalances e.snapshot.2 ops).revert e.snapshot.1).2.checkpoints
      = mapRemove (mapInsert e.checkpoints e.snapshot.1 e.snapshot.1) e.snapshot.1
  ∧ ((applyBalances e.snapshot.2 ops).revert e.snapshot.1).2.context.db
      = (applyBalances e.snapshot.2 ops).context.db := by
  obtain ⟨delta, hJ, hU, hL, hD, hC, hS⟩ := applyBalances_spec ops e.snapshot.2
  have hdepth : (applyBalances e.snapshot.2 ops).context.journaled_state.depth
      = e.context.journaled_state.depth + 1 := hD
  have hmap : (applyBalances e.snapshot.2 ops).checkpoints e.snapshot.1
      = some e.snapshot.1 := by
    rw [hC]
    simp [EVM.snapshot, JournaledState.checkpoint, mapInsert]
  have hok : ((applyBalances e.snapshot.2 ops).revert e.snapshot.1)
      = (.ok (), { applyBalances e.snapshot.2 ops with
           context := { (applyBalances e.snapshot.2 ops).context with
             journaled_state :=
               (applyBalances e.snapshot.2 ops).context.journaled_state.checkpoint_revert
                 e.snapshot.1 }
           checkpoints :=
             mapRemove (applyBalances e.snapshot.2 ops).checkpoints e.snapshot.1 }) := by
    unfold EVM.revert
    rw [hdepth, hmap]
    simp
  have hji : (e.snapshot.1).journal_i = e.context.journaled_state.journal.length := rfl
  have hli : (e.snapshot.1).log_i = e.context.journaled_state.logs := rfl
  have hJ2 : (applyBalances e.snapshot.2 ops).context.journaled_state.journal
      = e.context.journaled_state.journal ++ delta := hJ
  refine ⟨by rw [hok], ?_, ?_, ?_, ?_, ?_, by rw [hok]⟩
  · rw [hok]
    show undoAll (applyBalances e.snapshot.2 ops).context.journaled_state.state
        (((applyBalances e.snapshot.2 ops).context.journaled_state.journal.drop
          (e.snapshot.1).journal_i).reverse)
      = e.context.journaled_state.state
    rw [hji, hJ2, List.drop_left]
    exact hU
  · rw [hok]
    show ((applyBalances e.snapshot.2 ops).context.journaled_state.journal.take
        (e.snapshot.1).journal_i)
      = e.context.journaled_state.journal
    rw [hji, hJ2, List.take_left]
  · rw [hok]
    show min (applyBalances e.snapshot.2 ops).context.journaled_state.logs
        (e.snapshot.1).log_i
      = e.context.journaled_state.logs
    rw [hli, hL]
    exact min_self _
  · rw [hok]
    show (applyBalances e.snapshot.2 ops).context.journaled_state.depth - 1
      = e.context.journaled_state.depth
    rw [hdepth]
    exact Nat.add_sub_cancel _ _
  · rw [hok]
    show mapRemove (applyBalances e.snapshot.2 ops).checkpoints e.snapshot.1
      = mapRemove (mapInsert e.checkpoints e.snapshot.1 e.snapshot.1) e.snapshot.1
    rw [hC]
    rfl

/-! ## Claim theorems -/

/-- C1 counterexample: `insert_account_info` writes only the backing
database and is never journaled, so a successful `revert` does not restore
it — after `snapshot()`, `insert_account_info(187, balance 5)`, `revert`,
the account's `basic` info still shows balance 5, not the balance 0 it had
when the snapshot was taken. -/
theorem revert_insert_account_info_not_restored :
    ((EVM.new_memory.snapshot.2.insert_account_info 187
        { balance := 5, nonce := 0, code := [], code_hash := KECCAK_EMPTY }).revert
        EVM.new_memory.snapshot.1).1 = .ok ()
  ∧ EVM.new_memory.basic 187 = AccountInfo.zero
  ∧ (((EVM.new_memory.snapshot.2.insert_account_info 187
        { balance := 5, nonce := 0, code := [], code_hash := KECCAK_EMPTY }).revert
        EVM.new_memory.snapshot.1).2.basic 187).balance = 5 :=
  ⟨rfl, rfl, rfl⟩

/-- C1 amended: a successful `revert(T)` after a sequence of `set_balance`
writes restores the observable state of every account that was
materialized in the journaled overlay when `snapshot()` returned `T` — in
particular the concrete scenario `set_balance(b, 100); T := snapshot();
set_balance(b, 0); revert(T); get_balance(b) = 100` holds — and every
storage slot is unchanged; but mutations that bypass the journal
(`insert_account_info`, or the database half of a `set_balance` to an
address absent from the overlay) are not restored. -/
theorem revert_restores_journaled_overlay (e : EVM) (ops : List (Address × U256)) :
    ((applyBalances e.snapshot.2 ops).revert e.snapshot.1).1 = .ok ()
  ∧ (∀ a acc, e.context.journaled_state.state a = some acc →
        ((applyBalances e.snapshot.2 ops).revert e.snapshot.1).2.get_balance a
          = acc.info.balance
      ∧ ((applyBalances e.snapshot.2 ops).revert e.snapshot.1).2.basic a = acc.info)
  ∧ (∀ a i, ((applyBalances e.snapshot.2 ops).revert e.snapshot.1).2.storage a i
        = e.storage a i) := by
  obtain ⟨hok, hstate, hjour, hlogs, hdepth, hcp, hdb⟩ := snapshot_balances_revert e ops
  refine ⟨hok, ?_, ?_⟩
  · intro a acc h
    constructor
    · unfold EVM.get_balance EvmContext.loadAccountInfo
      rw [hstate, h]
    · unfold EVM.basic EvmContext.loadAccountInfo
      rw [hstate, h]
  · intro a i
    obtain ⟨-, -, -, -, -, -, hS⟩ := applyBalances_spec ops e.snapshot.2
    have hs := hS a i
    unfold EVM.storage at hs ⊢
    rw [hdb]
    exact hs

/-- C1 witness: the spec's concrete scenario — `set_balance(187, 100)`,
snapshot, `set_balance(187, 0)`, revert — ends with `get_balance(187)`
returning 100. -/
theorem revert_restores_journaled_overlay_witness :
    (EVM.new_memory.set_balance 187 100).context.journaled_state.state 187
      = some { info := { balance := 100, nonce := 0, code := [], code_hash := KECCAK_EMPTY }
               storage := fun _ => none }
  ∧ ((applyBalances (EVM.new_memory.set_balance 187 100).snapshot.2 [(187, 0)]).revert
        (EVM.new_memory.set_balance 187 100).snapshot.1).2.get_balance 187 = 100 :=
  ⟨rfl,
   ((revert_restores_journaled_overlay (EVM.new_memory.set_balance 187 100) [(187, 0)]).2.1
      187 _ rfl).1⟩

/-- C8: for every address and every value, after `set_balance(a, v)` the
call `get_balance(a)` returns exactly `v` (the account is written into the
journaled overlay, which `get_balance` consults first). -/
theorem set_balance_get_balance_roundtrip (e : EVM) (a : Address) (v : U256) :
    (e.set_balance a v).get_balance a = v := by
  simp [EVM.set_balance, EVM.get_balance, EvmContext.loadAccountInfo, mapInsert]

/-- C9: the projection of an engine execution result into the host-visible
result value is a total function (`ExecutionResult.fromRevm` is a plain
Lean function, so totality is by construction): every Success reason maps
to Stop, Return or SelfDestruct; Revert maps to the "Revert" tag; every
recognized halt reason maps to its named tag (the spec-side table
`specHaltTag`) and never to "Unknown"; any unrecognized halt reason maps to
the generic "Unknown" tag; and the success/halt flags reflect the engine
result. -/
theorem result_projection_classification :
    (∀ sr g gr o, (ExecutionResult.fromRevm (.Success sr g gr o)).reason ∈
        (["Stop", "Return", "SelfDestruct"] : List String))
  ∧ (∀ g o, (ExecutionResult.fromRevm (.Revert g o)).reason = "Revert")
  ∧ (∀ hr g, (ExecutionResult.fromRevm (.Halt hr g)).reason = specHaltTag hr)
  ∧ (∀ hr g, hr.isRecognized = false ∨
        (ExecutionResult.fromRevm (.Halt hr g)).reason ≠ "Unknown")
  ∧ (∀ t g, (ExecutionResult.fromRevm (.Halt (.Unrecognized t) g)).reason = "Unknown")
  ∧ (∀ r, (ExecutionResult.fromRevm r).is_success = r.is_success
        ∧ (ExecutionResult.fromRevm r).is_halt = r.is_halt) := by
  refine ⟨?_, fun g o => rfl, ?_, ?_, fun t g => rfl, fun r => ⟨rfl, rfl⟩⟩
  · intro sr g gr o
    cases sr <;> simp [ExecutionResult.fromRevm]
  · intro hr g
    cases hr with
    | OutOfGas o => cases o <;> rfl
    | _ => rfl
  · intro hr g
    cases hr with
    | OutOfGas o => right; cases o <;> simp [ExecutionResult.fromRevm]
    | Unrecognized t => left; rfl
    | _ => right; simp [ExecutionResult.fromRevm]

/-- C2 counterexample: an engine execution that starts and ends in Revert
makes `call_raw_with_env` raise an error to the caller instead of
returning an outcome value. -/
theorem revert_outcome_raises_counterexample :
    (EVM.call_raw_with_env EVM.new_memory
        { result := .Revert 21000 [], state := fun _ => none }).1
      = .error (.RuntimeError (.Revert 21000 [])) := rfl

/-- C2 amended: a call or deployment whose engine execution ends in Revert
or Halt raises an error to the caller — the error carrying the engine
result — while the outcome is still recorded in the `result` property;
only a Success execution returns normally. -/
theorem execution_failure_raises_error (e : EVM) (s : Address → Option Account) :
    (∀ g out,
        (e.call_raw_with_env { result := .Revert g out, state := s }).1
          = .error (.RuntimeError (.Revert g out))
      ∧ (e.deploy_with_env { result := .Revert g out, state := s }).1
          = .error (.RuntimeError (.Revert g out))
      ∧ (e.call_raw_with_env { result := .Revert g out, state := s }).2.result
          = some (.Revert g out))
  ∧ (∀ hr g,
        (e.call_raw_with_env { result := .Halt hr g, state := s }).1
          = .error (.RuntimeError (.Halt hr g))
      ∧ (e.deploy_with_env { result := .Halt hr g, state := s }).1
          = .error (.RuntimeError (.Halt hr g))
      ∧ (e.call_raw_with_env { result := .Halt hr g, state := s }).2.result
          = some (.Halt hr g)) :=
  ⟨fun _ _ => ⟨rfl, rfl, rfl⟩, fun _ _ => ⟨rfl, rfl, rfl⟩⟩

/-- C3 counterexample: after `snapshot()` followed by `commit()`, the
pre-commit token is still in the checkpoint map (not discarded), and
reverting it fails with `NoCheckpointToRevert`, not `InvalidCheckpoint`. -/
theorem commit_keeps_checkpoint_tokens :
    ((EVM.new_memory.snapshot.2.commit).checkpoints EVM.new_memory.snapshot.1
        = some EVM.new_memory.snapshot.1)
  ∧ ((EVM.new_memory.snapshot.2.commit).revert EVM.new_memory.snapshot.1).1
        = .error .NoCheckpointToRevert := by
  constructor
  · rfl
  · rfl

/-- C3 amended: `commit()` leaves the checkpoint map untouched (tokens are
not removed) and resets the journal depth, so an immediately following
revert of any token — pre-commit tokens included — fails with
`NoCheckpointToRevert` rather than `InvalidCheckpoint`, leaving the
instance unchanged. -/
theorem commit_then_revert_no_checkpoint (e : EVM) (cp : JournalCheckpoint) :
    (e.commit.checkpoints = e.checkpoints)
  ∧ (e.commit.context.journaled_state.state = e.context.journaled_state.state)
  ∧ ((e.commit.revert cp).1 = .error .NoCheckpointToRevert)
  ∧ ((e.commit.revert cp).2 = e.commit) := by
  refine ⟨rfl, rfl, ?_, ?_⟩ <;>
    simp [EVM.commit, EVM.revert, JournaledState.checkpoint_commit]

/-- C4 counterexample: with tokens T1 then T2 (T2 taken after T1),
reverting T1 directly leaves T2 among the currently held checkpoints
(`checkpoint_ids`), and a subsequent `revert(T2)` succeeds rather than
failing — `EVM::revert` removes only the token it is given from the map. -/
theorem inner_token_survives_outer_revert :
    (((c4e4 (EVM.new_memory.set_balance 187 100) 187 1 2).revert
        (c4T1 (EVM.new_memory.set_balance 187 100))).2.checkpoints
        (c4T2 (EVM.new_memory.set_balance 187 100) 187 1)
      = some (c4T2 (EVM.new_memory.set_balance 187 100) 187 1))
  ∧ ((((c4e4 (EVM.new_memory.set_balance 187 100) 187 1 2).revert
        (c4T1 (EVM.new_memory.set_balance 187 100))).2.revert
        (c4T2 (EVM.new_memory.set_balance 187 100) 187 1)).1 = .ok ()) :=
  ⟨rfl, rfl⟩

/-- C4 amended: for tokens T1 then T2 around balance writes to an address
materialized in the journaled overlay, reverting T2 then T1 restores the
pre-T1 balance (LIFO), and reverting T1 directly also discards both
pending writes and restores the pre-T1 balance — but T2 then remains among
the held checkpoints and a subsequent `revert(T2)` succeeds (as a no-op on
the journal) instead of failing. -/
theorem nested_checkpoint_revert (e : EVM) (a : Address) (acc : Account) (v1 v2 : U256)
    (h : e.context.journaled_state.state a = some acc) :
    (((c4e4 e a v1 v2).revert (c4T2 e a v1)).1 = .ok ())
  ∧ (((c4e4 e a v1 v2).revert (c4T2 e a v1)).2.get_balance a = v1)
  ∧ ((((c4e4 e a v1 v2).revert (c4T2 e a v1)).2.revert (c4T1 e)).1 = .ok ())
  ∧ ((((c4e4 e a v1 v2).revert (c4T2 e a v1)).2.revert (c4T1 e)).2.get_balance a
      = acc.info.balance)
  ∧ (((c4e4 e a v1 v2).revert (c4T1 e)).1 = .ok ())
  ∧ (((c4e4 e a v1 v2).revert (c4T1 e)).2.get_balance a = acc.info.balance)
  ∧ (((c4e4 e a v1 v2).revert (c4T1 e)).2.checkpoints (c4T2 e a v1)
      = some (c4T2 e a v1))
  ∧ ((((c4e4 e a v1 v2).revert (c4T1 e)).2.revert (c4T2 e a v1)).1 = .ok ()) := by
  have hT1 : c4T1 e
      = ⟨e.context.journaled_state.logs, e.context.journaled_state.journal.length⟩ := rfl
  have hT1j : (c4T1 e).journal_i = e.context.journaled_state.journal.length := rfl
  have hT2 : c4T2 e a v1
      = ⟨e.context.journaled_state.logs, e.context.journaled_state.journal.length + 1⟩ := by
    simp [c4T2, c4e2, EVM.snapshot, EVM.set_balance, JournaledState.checkpoint]
  have hne : c4T1 e ≠ c4T2 e a v1 := by
    rw [hT1, hT2]
    intro hh
    have hj := congrArg JournalCheckpoint.journal_i hh
    simp at hj
  have hne' : c4T2 e a v1 ≠ c4T1 e := fun hh => hne hh.symm
  -- facts about the state after T1 and the first write
  have hE1depth : (c4e2 e a v1).context.journaled_state.depth
      = e.context.journaled_state.depth + 1 := rfl
  have hE1journal : (c4e2 e a v1).context.journaled_state.journal
      = e.context.journaled_state.journal
        ++ [JournalEntry.accountChange a (e.context.journaled_state.state a)] := rfl
  have hE1cp : (c4e2 e a v1).checkpoints
      = mapInsert e.checkpoints (c4T1 e) (c4T1 e) := rfl
  have hE1state : (c4e2 e a v1).context.journaled_state.state a
      = some { info := { acc.info with balance := v1 }, storage := acc.storage } := by
    simp [c4e2, EVM.set_balance, EVM.snapshot, JournaledState.checkpoint, mapInsert, h]
  -- path A: the inner revert through the snapshot/apply/revert lemma
  have hfold : applyBalances (c4e2 e a v1).snapshot.2 [(a, v2)] = c4e4 e a v1 v2 := rfl
  have hT2def : (c4e2 e a v1).snapshot.1 = c4T2 e a v1 := rfl
  obtain ⟨A1, A2, A3, A4, A5, A6, A7⟩ :=
    snapshot_balances_revert (c4e2 e a v1) [(a, v2)]
  rw [hfold, hT2def] at A1 A2 A3 A5 A6
  have hBd : ((c4e4 e a v1 v2).revert (c4T2 e a v1)).2.context.journaled_state.depth ≠ 0 := by
    rw [A5, hE1depth]
    simp
  have hBcp : ((c4e4 e a v1 v2).revert (c4T2 e a v1)).2.checkpoints (c4T1 e)
      = some (c4T1 e) := by
    rw [A6, hE1cp]
    simp [mapRemove, mapInsert, hne]
  have hrevA := revert_some ((c4e4 e a v1 v2).revert (c4T2 e a v1)).2
    (c4T1 e) (c4T1 e) hBd hBcp
  -- path B: the direct outer revert
  have h4depth : (c4e4 e a v1 v2).context.journaled_state.depth
      = e.context.journaled_state.depth + 2 := rfl
  have h4journal : (c4e4 e a v1 v2).context.journaled_state.journal
      = (e.context.journaled_state.journal
          ++ [JournalEntry.accountChange a (e.context.journaled_state.state a)])
        ++ [JournalEntry.accountChange a
              ((c4e2 e a v1).context.journaled_state.state a)] := rfl
  have h4cp : (c4e4 e a v1 v2).checkpoints
      = mapInsert (mapInsert e.checkpoints (c4T1 e) (c4T1 e))
          (c4T2 e a v1) (c4T2 e a v1) := rfl
  have hd4 : (c4e4 e a v1 v2).context.journaled_state.depth ≠ 0 := by
    rw [h4depth]
    simp
  have h4cpT1 : (c4e4 e a v1 v2).checkpoints (c4T1 e) = some (c4T1 e) := by
    rw [h4cp]
    simp [mapInsert, hne]
  have hrevB := revert_some (c4e4 e a v1 v2) (c4T1 e) (c4T1 e) hd4 h4cpT1
  refine ⟨A1, ?_, ?_, ?_, ?_, ?_, ?_, ?_⟩
  · unfold EVM.get_balance EvmContext.loadAccountInfo
    rw [A2, hE1state]
  · exact revert_ok _ _ hBd (by rw [hBcp]; simp)
  · rw [hrevA]
    unfold EVM.get_balance EvmContext.loadAccountInfo
    show (match (((c4e4 e a v1 v2).revert
          (c4T2 e a v1)).2.context.journaled_state.checkpoint_revert (c4T1 e)).state a with
      | some acc => acc.info
      | none => ((c4e4 e a v1 v2).revert
          (c4T2 e a v1)).2.context.db.basicVal a).balance = acc.info.balance
    unfold JournaledState.checkpoint_revert
    rw [A3, hE1journal, hT1j, List.drop_left]
    simp [undoAll, undoEntry, h]
  · rw [hrevB]
  · rw [hrevB]
    unfold EVM.get_balance EvmContext.loadAccountInfo
    show (match ((c4e4 e a v1 v2).context.journaled_state.checkpoint_revert
          (c4T1 e)).state a with
      | some acc => acc.info
      | none => (c4e4 e a v1 v2).context.db.basicVal a).balance = acc.info.balance
    unfold JournaledState.checkpoint_revert
    rw [h4journal, hT1j, List.append_assoc, List.drop_left]
    simp [undoAll, undoEntry, h]
  · rw [hrevB]
    show mapRemove (c4e4 e a v1 v2).checkpoints (c4T1 e) (c4T2 e a v1)
      = some (c4T2 e a v1)
    rw [h4cp]
    simp [mapRemove, mapInsert, hne']
  · rw [hrevB]
    refine revert_ok _ _ ?_ ?_
    · show (c4e4 e a v1 v2).context.journaled_state.depth - 1 ≠ 0
      rw [h4depth]
      simp
    · show mapRemove (c4e4 e a v1 v2).checkpoints (c4T1 e) (c4T2 e a v1) ≠ none
      rw [h4cp]
      simp [mapRemove, mapInsert, hne']

/-- C4 witness: the concrete scenario — `set_balance(187, 100)`, T1,
`set_balance(187, 1)`, T2, `set_balance(187, 2)` — where reverting T2
yields balance 1 and reverting T1 directly yields balance 100. -/
theorem nested_checkpoint_revert_witness :
    ((EVM.new_memory.set_balance 187 100).context.journaled_state.state 187
      = some { info := { balance := 100, nonce := 0, code := [], code_hash := KECCAK_EMPTY }
               storage := fun _ => none })
  ∧ (((c4e4 (EVM.new_memory.set_balance 187 100) 187 1 2).revert
        (c4T2 (EVM.new_memory.set_balance 187 100) 187 1)).2.get_balance 187 = 1)
  ∧ (((c4e4 (EVM.new_memory.set_balance 187 100) 187 1 2).revert
        (c4T1 (EVM.new_memory.set_balance 187 100))).2.get_balance 187 = 100) :=
  ⟨rfl,
   (nested_checkpoint_revert (EVM.new_memory.set_balance 187 100) 187 _ 1 2 rfl).2.1,
   (nested_checkpoint_revert (EVM.new_memory.set_balance 187 100) 187 _ 1 2 rfl).2.2.2.2.2.1⟩

/-- C5: `revert(token)` fails with `NoCheckpointToRevert` exactly when the
journal depth is zero (no checkpoint outstanding), and with
`InvalidCheckpoint` exactly when the depth is positive but the token is not
among the currently held checkpoints; and the call either succeeds or
leaves the instance — store state and held checkpoints — unchanged. -/
theorem revert_error_classification (e : EVM) (cp : JournalCheckpoint) :
    ((EVM.revert e cp).1 = .error .NoCheckpointToRevert
        ↔ e.context.journaled_state.depth = 0)
  ∧ ((EVM.revert e cp).1 = .error .InvalidCheckpoint
        ↔ (e.context.journaled_state.depth ≠ 0 ∧ e.checkpoints cp = none))
  ∧ ((EVM.revert e cp).1 = .ok () ∨ (EVM.revert e cp).2 = e) := by
  by_cases hd : e.context.journaled_state.depth = 0
  · refine ⟨by simp [EVM.revert, hd], by simp [EVM.revert, hd], ?_⟩
    right
    simp [EVM.revert, hd]
  · cases hm : e.checkpoints cp with
    | some rcp =>
        refine ⟨by simp [EVM.revert, hd, hm], by simp [EVM.revert, hd, hm], ?_⟩
        left
        simp [EVM.revert, hd, hm]
    | none =>
        refine ⟨by simp [EVM.revert, hd, hm], by simp [EVM.revert, hd, hm], ?_⟩
        right
        simp [EVM.revert, hd, hm]

/-- C6 counterexample: a non-committing `call_raw` that returns
successfully can change an observable balance — after `set_balance(187,
100)` (which writes overlay and store) and `insert_account_info(187,
balance 7)` (which writes only the store), `get_balance(187)` is 100, but
after a successful `call_raw` the journaled overlay is finalized and
`get_balance(187)` becomes 7. -/
theorem call_raw_overlay_divergence :
    ((c6e.call_raw c6run).1.isOk = true)
  ∧ (c6e.get_balance 187 = 100)
  ∧ ((c6e.call_raw c6run).2.get_balance 187 = 7) :=
  ⟨rfl, rfl, rfl⟩

/-- C6 amended: a non-committing `call_raw` never writes the backing
database (only the committing variants persist the state diff), and it
leaves `get_balance`/`basic`/`storage` unchanged at every address at which
the journaled overlay agrees with the backing store — in particular
whenever the overlay is empty; but the call finalizes (clears) the
overlay, so an address where the two layers diverged (cf. the
counterexample) changes its observable value to the store's. -/
theorem call_raw_no_persistent_effect (e : EVM) (run : ResultAndState) (a : Address)
    (h : e.overlayConsistentAt a = true) :
    ((e.call_raw run).2.context.db = e.context.db)
  ∧ ((e.call_raw run).2.get_balance a = e.get_balance a)
  ∧ ((e.call_raw run).2.basic a = e.basic a)
  ∧ (∀ i, (e.call_raw run).2.storage a i = e.storage a i) := by
  rw [call_raw_state]
  have hinfo : (e.run_env run).2.context.loadAccountInfo a = e.context.loadAccountInfo a := by
    unfold EVM.run_env EvmContext.loadAccountInfo
    cases hs : e.context.journaled_state.state a with
    | none => simp [hs]
    | some acc =>
        have hc : acc.info = e.context.db.basicVal a := by
          unfold EVM.overlayConsistentAt at h
          rw [hs] at h
          exact of_decide_eq_true h
        simp [hs, hc]
  exact ⟨rfl, by unfold EVM.get_balance; rw [hinfo], by unfold EVM.basic; rw [hinfo],
    fun i => rfl⟩

/-- C6 witness: from a state where the overlay agrees with the store
(after a single `set_balance`), a successful non-committing call leaves
`get_balance` unchanged. -/
theorem call_raw_no_persistent_effect_witness :
    ((EVM.new_memory.set_balance 187 100).overlayConsistentAt 187 = true)
  ∧ (((EVM.new_memory.set_balance 187 100).call_raw c6run).2.get_balance 187
      = (EVM.new_memory.set_balance 187 100).get_balance 187) :=
  ⟨by decide,
   (call_raw_no_persistent_effect (EVM.new_memory.set_balance 187 100) c6run 187
      (by decide)).2.1⟩

/-- An address untouched by any host operation keeps the untouched
invariant through one host operation. -/
theorem untouched_applyOp (e : EVM) (op : HostOp) (a : Address)
    (hw : op.writes a = false) (h : untouchedAt e a) : untouchedAt (applyOp e op) a := by
  obtain ⟨hjs, hdb, hent⟩ := h
  cases op with
  | setBalance x v =>
      have hx : ¬(x = a) := by simpa [HostOp.writes] using hw
      have hax : ¬(a = x) := fun hh => hx hh.symm
      refine ⟨?_, ?_, ?_⟩
      · simp [applyOp, EVM.set_balance, mapInsert, hax, hjs]
      · simp [applyOp, EVM.set_balance, DB.insert_account_info, mapInsert, hax, hdb]
      · intro ent hm
        simp only [applyOp, EVM.set_balance, List.mem_append, List.mem_singleton] at hm
        rcases hm with hm | hm
        · exact hent ent hm
        · subst hm
          simpa [JournalEntry.address] using hx
  | insertAccountInfo x info =>
      have hx : ¬(x = a) := by simpa [HostOp.writes] using hw
      have hax : ¬(a = x) := fun hh => hx hh.symm
      exact ⟨hjs, by simp [applyOp, EVM.insert_account_info, DB.insert_account_info,
        mapInsert, hax, hdb], hent⟩
  | snapshotOp =>
      exact ⟨hjs, hdb, hent⟩
  | commitOp =>
      exact ⟨hjs, hdb, hent⟩
  | callRawOp run =>
      refine ⟨?_, ?_, ?_⟩
      · show ((e.call_raw run).2).context.journaled_state.state a = none
        rw [call_raw_state]
        rfl
      · show ((e.call_raw run).2).context.db.accounts a = none
        rw [call_raw_state]
        exact hdb
      · show ∀ ent ∈ ((e.call_raw run).2).context.journaled_state.journal, ent.address ≠ a
        rw [call_raw_state]
        intro ent hm
        simp [EVM.run_env] at hm
  | revertOp cp =>
      show untouchedAt (e.revert cp).2 a
      unfold EVM.revert
      by_cases hd : e.context.journaled_state.depth = 0
      · simpa [hd] using ⟨hjs, hdb, hent⟩
      · cases hm : e.checkpoints cp with
        | none => simpa [hd, hm] using ⟨hjs, hdb, hent⟩
        | some rcp =>
            have hdrop : ∀ ent ∈ (e.context.journaled_state.journal.drop
                rcp.journal_i).reverse, ent.address ≠ a := by
              intro ent hmem
              exact hent ent ((List.drop_sublist _ _).subset (List.mem_reverse.mp hmem))
            refine ⟨?_, ?_, ?_⟩
            · simp only [hd, hm, if_neg hd]
              show undoAll e.context.journaled_state.state _ a = none
              rw [undoAll_untouched a _ hdrop]
              exact hjs
            · simpa [hd, hm] using hdb
            · simp only [hd, hm, if_neg hd]
              intro ent hmem
              exact hent ent ((List.take_sublist _ _).subset hmem)

/-- An address untouched by a whole trace of host operations keeps the
untouched invariant. -/
theorem untouched_applyOps (ops : List HostOp) (e : EVM) (a : Address)
    (hw : ∀ op ∈ ops, op.writes a = false) (h : untouchedAt e a) :
    untouchedAt (applyOps e ops) a := by
  induction ops generalizing e with
  | nil => exact h
  | cons op rest ih =>
      exact ih (applyOp e op) (fun o hm => hw o (by simp [hm]))
        (untouched_applyOp e op a (hw op (by simp)) h)

/-- At an untouched address every read returns the default. -/
theorem untouched_reads (e : EVM) (a : Address) (h : untouchedAt e a) :
    e.basic a = AccountInfo.zero ∧ e.get_balance a = 0 ∧ ∀ i, e.storage a i = 0 := by
  obtain ⟨hjs, hdb, -⟩ := h
  refine ⟨?_, ?_, ?_⟩
  · unfold EVM.basic EvmContext.loadAccountInfo DB.basicVal
    rw [hjs, hdb]
  · unfold EVM.get_balance EvmContext.loadAccountInfo DB.basicVal
    rw [hjs, hdb]
    rfl
  · intro i
    unfold EVM.storage DB.storageVal
    rw [hdb]

/-- C7: starting from a fresh instance, after any trace of host store
operations none of which writes the address, `basic(address)` returns the
zero-valued AccountInfo — zero balance, zero nonce, no code, empty-code
hash — (and, being a total function in this embedding, it never fails;
`EmptyDBWrapper::basic_ref` always answers `Some(default)`); and every
(address, index) pair that has never been written reads zero — which is
every pair, for every address: the exposed surface has no storage-write
operation, and the account-info writes (`set_balance`,
`insert_account_info`) never touch a slot, so slots of an address whose
info was written are still unwritten pairs and read zero. -/
theorem default_read_property (ops : List HostOp) (a : Address)
    (h : ∀ op ∈ ops, op.writes a = false) :
    (applyOps EVM.new_memory ops).basic a = AccountInfo.zero
  ∧ (applyOps EVM.new_memory ops).get_balance a = 0
  ∧ ∀ x i, (applyOps EVM.new_memory ops).storage x i = 0 := by
  have hu := untouched_reads _ _
    (untouched_applyOps ops EVM.new_memory a h ⟨rfl, rfl, by simp [EVM.new_memory]⟩)
  exact ⟨hu.1, hu.2.1,
    fun x i => (applyOps_storage ops EVM.new_memory x i).trans rfl⟩

/-- C7 witness: a concrete trace writing addresses 1 and 2 leaves address
3 reading the zero-valued default, and the slots of the written address 1
— unwritten (address, index) pairs — still read zero. -/
theorem default_read_property_witness :
    (∀ op ∈ ([HostOp.setBalance 1 5, HostOp.snapshotOp,
        HostOp.insertAccountInfo 2 AccountInfo.zero] : List HostOp), op.writes 3 = false)
  ∧ (applyOps EVM.new_memory [HostOp.setBalance 1 5, HostOp.snapshotOp,
        HostOp.insertAccountInfo 2 AccountInfo.zero]).basic 3 = AccountInfo.zero
  ∧ (applyOps EVM.new_memory [HostOp.setBalance 1 5, HostOp.snapshotOp,
        HostOp.insertAccountInfo 2 AccountInfo.zero]).storage 1 0 = 0 :=
  ⟨by decide,
   (default_read_property [HostOp.setBalance 1 5, HostOp.snapshotOp,
      HostOp.insertAccountInfo 2 AccountInfo.zero] 3 (by decide)).1,
   (default_read_property [HostOp.setBalance 1 5, HostOp.snapshotOp,
      HostOp.insertAccountInfo 2 AccountInfo.zero] 3 (by decide)).2.2 1 0⟩

/-- C10: two consecutive `snapshot()` calls with no journal entry appended
and no log emitted in between (in this model a snapshot appends nothing,
so nothing happens between the two engine checkpoints) return equal tokens
— equal as values and under the hash fed by `src/types/checkpoint.rs` —
the checkpoint map holds a single entry for them (every other key is
unchanged), and that token reverts successfully at most once: the first
revert succeeds, the second fails with `InvalidCheckpoint`, even though the
journal depth was pushed twice. -/
theorem double_snapshot_single_token (e : EVM) :
    (e.snapshot.1 = e.snapshot.2.snapshot.1)
  ∧ (e.snapshot.1.hashFields = e.snapshot.2.snapshot.1.hashFields)
  ∧ (e.snapshot.2.snapshot.2.checkpoints e.snapshot.1 = some e.snapshot.1)
  ∧ (∀ k, k = e.snapshot.1 ∨ e.snapshot.2.snapshot.2.checkpoints k = e.checkpoints k)
  ∧ ((e.snapshot.2.snapshot.2.revert e.snapshot.1).1 = .ok ())
  ∧ (((e.snapshot.2.snapshot.2.revert e.snapshot.1).2.revert e.snapshot.1).1
        = .error .InvalidCheckpoint) := by
  refine ⟨rfl, rfl, by simp [EVM.snapshot, JournaledState.checkpoint, mapInsert], ?_, ?_, ?_⟩
  · intro k
    by_cases hk : k = e.snapshot.1
    · exact Or.inl hk
    · right
      simp [EVM.snapshot, JournaledState.checkpoint, mapInsert] at hk ⊢
      simp [hk]
  · simp [EVM.snapshot, JournaledState.checkpoint, mapInsert, EVM.revert]
  · simp [EVM.snapshot, JournaledState.checkpoint, mapInsert, mapRemove, EVM.revert,
      JournaledState.checkpoint_revert]

end PyRevm
